import Mathlib

/-! pygalmesh: extrusion domain, bounding volumes, criteria and feature edges.

A shallow embedding of `src/src/polygon2d.hpp`, `src/src/generate.cpp` and
`src/src/generate_periodic.cpp`.

Modelling conventions.

* `double` is a linear ordered field `F` (exact arithmetic: rounding, NaN and
  infinities are outside the model).  All definitions are generic in `F`, so
  they evaluate over `ℚ` and can be instantiated with `ℝ`.
* `std::vector<double>` values that the code indexes at `[0]`, `[1]` (and
  `[2]`) are `Vec2` / `Vec3`; `K::Point_2` and `K::Point_3` are `Point_2` and
  `Point_3`.
* Functions that the code calls but that live outside the repository (libm's
  `sin` and `cos`, CGAL's `bounded_side_2`, CGAL's `make_mesh_3`) are
  parameters of the definitions that call them.
* What an entry point hands to the engine is stated on the entry point: for
  every engine, the entry point returns what the engine returns on one call,
  and the statement describes that call.
-/

set_option linter.unusedSectionVars false

namespace pygalmesh

/-! ## Data model -/

/-- A `std::vector<double>` used with the two indices `[0]`, `[1]`. -/
structure Vec2 (F : Type) where
  c0 : F
  c1 : F
deriving DecidableEq, Repr

/-- A `std::vector<double>` / `std::array<double, 3>` used with the three
indices `[0]`, `[1]`, `[2]`. -/
structure Vec3 (F : Type) where
  c0 : F
  c1 : F
  c2 : F
deriving DecidableEq, Repr

/-- CGAL `K::Point_2` with accessors `x()`, `y()`. -/
structure Point_2 (F : Type) where
  x : F
  y : F
deriving DecidableEq, Repr

/-- CGAL `K::Point_3` with accessors `x()`, `y()`, `z()`. -/
structure Point_3 (F : Type) where
  x : F
  y : F
  z : F
deriving DecidableEq, Repr

/-- CGAL `Bounded_side`, the answer of `bounded_side_2`. -/
inductive Bounded_side where
  | ON_UNBOUNDED_SIDE
  | ON_BOUNDARY
  | ON_BOUNDED_SIDE
deriving DecidableEq, Repr

/-- The functions of libm and of the CGAL kernel that `polygon2d.hpp` calls. -/
structure Kernel (F : Type) where
  /-- libm `sin`. -/
  sin : F → F
  /-- libm `cos`. -/
  cos : F → F
  /-- `CGAL::bounded_side_2(first, last, pt, K())` on the polygon's vertex range. -/
  bounded_side_2 : List (Point_2 F) → Point_2 F → Bounded_side

/-- The class `Polygon2D`: its only member is `points`. -/
structure Polygon2D (F : Type) where
  points : List (Point_2 F)

/-- The member function `Polygon2D::vector_to_cgal_points`. -/
def Polygon2D.vector_to_cgal_points {F : Type} (_points : List (Vec2 F)) : List (Point_2 F) :=
  _points.map (fun p => Point_2.mk p.c0 p.c1)

/-- The constructor `Polygon2D(_points)`. -/
def Polygon2D.new {F : Type} (_points : List (Vec2 F)) : Polygon2D F :=
  ⟨Polygon2D.vector_to_cgal_points _points⟩

/-- The member function `Polygon2D::is_inside`: a `switch` on the answer of `bounded_side_2`. -/
def Polygon2D.is_inside {F : Type} (k : Kernel F) (self : Polygon2D F) (point : Vec2 F) : Bool :=
  let pt : Point_2 F := ⟨point.c0, point.c1⟩
  match k.bounded_side_2 self.points pt with
  | Bounded_side.ON_BOUNDED_SIDE => true
  | Bounded_side.ON_BOUNDARY => true
  | Bounded_side.ON_UNBOUNDED_SIDE => false

/-- The class `Extrude`: members `poly_`, `direction_` (three doubles) and `alpha_`. -/
structure Extrude (F : Type) where
  poly_ : Polygon2D F
  direction_ : Vec3 F
  alpha_ : F

variable {F : Type} [LinearOrderedField F]

/-- The member function `Extrude::eval`. -/
def Extrude.eval (k : Kernel F) (self : Extrude F) (x : Vec3 F) : F :=
  if x.c2 < 0 ∨ x.c2 > self.direction_.c2 then
    1
  else
    let beta := x.c2 / self.direction_.c2
    let x2 : Vec2 F := ⟨x.c0 - beta * self.direction_.c0, x.c1 - beta * self.direction_.c1⟩
    let x2 : Vec2 F :=
      if self.alpha_ ≠ 0 then
        let sinAlpha := k.sin (beta * self.alpha_)
        let cosAlpha := k.cos (beta * self.alpha_)
        ⟨cosAlpha * x2.c0 + sinAlpha * x2.c1, -sinAlpha * x2.c0 + cosAlpha * x2.c1⟩
      else
        x2
    if self.poly_.is_inside k x2 then -1 else 1

/-- Rotation of the plane about the origin by the angle `theta` (counter-clockwise for
positive `theta`), the `R(theta)` of the specification. -/
def rotate (k : Kernel F) (theta : F) (p : Vec2 F) : Vec2 F :=
  ⟨k.cos theta * p.c0 - k.sin theta * p.c1, k.sin theta * p.c0 + k.cos theta * p.c1⟩

/-- A list of polylines, each a list of points given by three doubles: the return type of
`get_features` and the type `DomainBase::Features`. -/
abbrev Features (F : Type) := List (List (Vec3 F))

/-- The member function `Extrude::get_bounding_sphere_squared_radius`: the loop over
`poly_->points` updating the local `max`, which starts at `0.0`. -/
def Extrude.get_bounding_sphere_squared_radius (self : Extrude F) : F :=
  self.poly_.points.foldl
    (fun max pt =>
      -- bottom polygon
      let nrm0 := pt.x * pt.x + pt.y * pt.y
      let max := if nrm0 > max then nrm0 else max
      -- top polygon
      let x := pt.x + self.direction_.c0
      let y := pt.y + self.direction_.c1
      let z := self.direction_.c2
      let nrm1 := x * x + y * y + z * z
      if nrm1 > max then nrm1 else max)
    0

/-- The element `poly_->points[i]`.  Every index that `get_features` reads is below
`points.size()` when the polygon has a vertex, so the fallback value is never returned there. -/
def Polygon2D.get (self : Polygon2D F) (i : Nat) : Point_2 F :=
  self.points.getD i ⟨0, 0⟩

/-- The two loops `for (size_t i=0; i < n-1; i++) features.push_back(...)` of `get_features`:
`edge i` is the polyline pushed in iteration `i`. -/
def push_back_loop {α : Type} (n : Nat) (edge : Nat → α) (features : List α) : List α :=
  (List.range (n - 1)).foldl (fun features i => features ++ [edge i]) features

/-- The member function `Extrude::get_features`.  With an empty polygon `n-1` wraps around in
`size_t` and the loop reads `points` out of bounds (undefined behaviour): that case is `none`. -/
def Extrude.get_features (k : Kernel F) (self : Extrude F) : Option (Features F) :=
  let n := self.poly_.points.length
  if n = 0 then
    none
  else
    let features : Features F := []
    -- bottom polygon
    let features := push_back_loop n
      (fun i =>
        [⟨(self.poly_.get i).x, (self.poly_.get i).y, 0⟩,
         ⟨(self.poly_.get (i + 1)).x, (self.poly_.get (i + 1)).y, 0⟩])
      features
    let features := features ++
      [[⟨(self.poly_.get (n - 1)).x, (self.poly_.get (n - 1)).y, 0⟩,
        ⟨(self.poly_.get 0).x, (self.poly_.get 0).y, 0⟩]]
    -- top polygon, R*x + d
    let sinAlpha := k.sin self.alpha_
    let cosAlpha := k.cos self.alpha_
    let features := push_back_loop n
      (fun i =>
        [⟨cosAlpha * (self.poly_.get i).x - sinAlpha * (self.poly_.get i).y + self.direction_.c0,
          sinAlpha * (self.poly_.get i).x + cosAlpha * (self.poly_.get i).y + self.direction_.c1,
          self.direction_.c2⟩,
         ⟨cosAlpha * (self.poly_.get (i + 1)).x - sinAlpha * (self.poly_.get (i + 1)).y
            + self.direction_.c0,
          sinAlpha * (self.poly_.get (i + 1)).x + cosAlpha * (self.poly_.get (i + 1)).y
            + self.direction_.c1,
          self.direction_.c2⟩])
      features
    let features := features ++
      [[⟨cosAlpha * (self.poly_.get (n - 1)).x - sinAlpha * (self.poly_.get (n - 1)).y
            + self.direction_.c0,
         sinAlpha * (self.poly_.get (n - 1)).x + cosAlpha * (self.poly_.get (n - 1)).y
            + self.direction_.c1,
         self.direction_.c2⟩,
        ⟨cosAlpha * (self.poly_.get 0).x - sinAlpha * (self.poly_.get 0).y + self.direction_.c0,
         sinAlpha * (self.poly_.get 0).x + cosAlpha * (self.poly_.get 0).y + self.direction_.c1,
         self.direction_.c2⟩]]
    some features

/-- The vertex `(p, z = 0)` of the base polygon. -/
def base_vertex (p : Point_2 F) : Vec3 F := ⟨p.x, p.y, 0⟩

/-- The vertex `T(p) = (R(alpha) p + (dx, dy), dz)` of the top polygon, with `R(alpha)` the
rotation `rotate` by the full angle `alpha`. -/
def top_vertex (k : Kernel F) (self : Extrude F) (p : Point_2 F) : Vec3 F :=
  ⟨(rotate k self.alpha_ ⟨p.x, p.y⟩).c0 + self.direction_.c0,
   (rotate k self.alpha_ ⟨p.x, p.y⟩).c1 + self.direction_.c1,
   self.direction_.c2⟩

/-- The list of polylines that the specification describes for `get_features`: for
`i = 0..n-1` the base edge `p_i -> p_((i+1) mod n)`, then for `i = 0..n-1` the top edge
`T(p_i) -> T(p_((i+1) mod n))`. -/
def features_spec (k : Kernel F) (self : Extrude F) : Features F :=
  let n := self.poly_.points.length
  (List.range n).map
      (fun i => [base_vertex (self.poly_.get i), base_vertex (self.poly_.get ((i + 1) % n))])
    ++ (List.range n).map
      (fun i =>
        [top_vertex k self (self.poly_.get i), top_vertex k self (self.poly_.get ((i + 1) % n))])

/-- The squared distance of a point from the origin. -/
def Vec3.squared_norm (p : Vec3 F) : F :=
  p.c0 * p.c0 + p.c1 * p.c1 + p.c2 * p.c2

/-! ## `generate.cpp` and `generate_periodic.cpp` -/

/-- The interface `DomainBase`: `eval`, `get_bounding_sphere_squared_radius`, `get_features`. -/
structure DomainBase (F : Type) where
  eval : Vec3 F → F
  get_bounding_sphere_squared_radius : F
  get_features : Features F

/-- The interface `SizingFieldBase`: `eval`. -/
structure SizingFieldBase (F : Type) where
  eval : Vec3 F → F

/-- The function `convert_feature_edges`: both loops push to the back of the container they
build. -/
def convert_feature_edges (feature_edges : Features F) : List (List (Point_3 F)) :=
  feature_edges.foldl
    (fun polylines feature_edge =>
      polylines ++
        [feature_edge.foldl
          (fun polyline point => polyline ++ [Point_3.mk point.c0 point.c1 point.c2]) []])
    []

/-- The coordinates of a `K::Point_3`, read back as three doubles. -/
def Point_3.coordinates (p : Point_3 F) : Vec3 F := ⟨p.x, p.y, p.z⟩

/-- CGAL `K::Sphere_3(center, squared_radius)`. -/
structure Sphere_3 (F : Type) where
  center : Point_3 F
  squared_radius : F
deriving DecidableEq, Repr

/-- CGAL `CGAL::ORIGIN` as a point. -/
def ORIGIN : Point_3 F := ⟨0, 0, 0⟩

/-- CGAL `K::Iso_cuboid_3(min_hx, min_hy, min_hz, max_hx, max_hy, max_hz)`. -/
structure Iso_cuboid_3 (F : Type) where
  min_hx : F
  min_hy : F
  min_hz : F
  max_hx : F
  max_hy : F
  max_hz : F
deriving DecidableEq, Repr

/-- A size bound as the constructors of the CGAL criteria accept it: a scalar, or a callable
taking a point, a dimension and a domain index. -/
inductive Bound (F Index : Type) where
  | scalar (value : F)
  | field (f : Point_3 F → Int → Index → F)

/-- The value of a bound at a point: a scalar bound is the constant field (CGAL wraps it in a
constant sizing field), a callable is called. -/
def Bound.eval {Index : Type} : Bound F Index → Point_3 F → Int → Index → F
  | Bound.scalar value, _, _, _ => value
  | Bound.field f, p, dim, index => f p dim index

/-- CGAL `Edge_criteria(length_bound, min_length_bound)`. -/
structure Edge_criteria (F Index : Type) where
  length_bound : Bound F Index
  min_length_bound : F

/-- CGAL `Facet_criteria(angle_bound, radius_bound, distance_bound)`. -/
structure Facet_criteria (F Index : Type) where
  angle_bound : F
  radius_bound : Bound F Index
  distance_bound : Bound F Index

/-- CGAL `Cell_criteria(radius_edge_bound, radius_bound)`. -/
structure Cell_criteria (F Index : Type) where
  radius_edge_bound : F
  radius_bound : Bound F Index

/-- CGAL `Mesh_criteria(edge_criteria, facet_criteria, cell_criteria)`. -/
structure Mesh_criteria (F Index : Type) where
  edge_criteria : Edge_criteria F Index
  facet_criteria : Facet_criteria F Index
  cell_criteria : Cell_criteria F Index

/-- CGAL `Mesh_domain`: the implicit function, the bounding volume of type `T`, and the
polylines registered so far, in registration order. -/
structure Mesh_domain (F T : Type) where
  function : Point_3 F → F
  bounds : T
  features : List (List (Point_3 F))

/-- CGAL `Mesh_domain::create_implicit_mesh_domain(d, domain_bounds)`. -/
def Mesh_domain.create_implicit_mesh_domain {T : Type} (d : Point_3 F → F) (domain_bounds : T) :
    Mesh_domain F T :=
  ⟨d, domain_bounds, []⟩

/-- CGAL `Mesh_domain::add_features(first, last)`: registers the polylines of the range in
order, after those already registered. -/
def Mesh_domain.add_features {T : Type} (self : Mesh_domain F T)
    (polylines : List (List (Point_3 F))) : Mesh_domain F T :=
  { self with features := self.features ++ polylines }

/-- The parameters that the three overloads of `generate_mesh` share, from
`extra_feature_edges` to `seed`. -/
structure Mesh_params (F : Type) where
  extra_feature_edges : Features F
  lloyd : Bool
  odt : Bool
  perturb : Bool
  exude : Bool
  min_edge_size_at_feature_edges : F
  max_edge_size_at_feature_edges_value : F
  max_edge_size_at_feature_edges_field : Option (SizingFieldBase F)
  min_facet_angle : F
  max_radius_surface_delaunay_ball_value : F
  max_radius_surface_delaunay_ball_field : Option (SizingFieldBase F)
  max_facet_distance_value : F
  max_facet_distance_field : Option (SizingFieldBase F)
  max_circumradius_edge_ratio : F
  max_cell_circumradius_value : F
  max_cell_circumradius_field : Option (SizingFieldBase F)
  exude_time_limit : F
  exude_sliver_bound : F
  verbose : Bool
  seed : Int

/-- The arguments of the call `CGAL::make_mesh_3<C3t3>(cgal_domain, criteria, lloyd, odt,
perturb, exude)`; `exude` carries `(time_limit, sliver_bound)` when exudation is requested. -/
structure Make_mesh_3_call (F Index T : Type) where
  cgal_domain : Mesh_domain F T
  criteria : Mesh_criteria F Index
  lloyd : Bool
  odt : Bool
  perturb : Bool
  exude : Option (F × F)

/-- The lambda `[&](K::Point_3 p, const int, const Mesh_domain::Index&)` that wraps a sizing
field in `generate_mesh`. -/
def field_lambda {Index : Type} (field : SizingFieldBase F) : Point_3 F → Int → Index → F :=
  fun p _ _ => field.eval ⟨p.x, p.y, p.z⟩

/-- The local `facet_criteria` of `generate_mesh`: the nested ternary operator. -/
def generate_mesh_facet_criteria {Index : Type} (a : Mesh_params F) : Facet_criteria F Index :=
  match a.max_radius_surface_delaunay_ball_field with
  | some radius_field =>
    match a.max_facet_distance_field with
    | some distance_field =>
      ⟨a.min_facet_angle, Bound.field (field_lambda radius_field),
        Bound.field (field_lambda distance_field)⟩
    | none =>
      ⟨a.min_facet_angle, Bound.field (field_lambda radius_field),
        Bound.scalar a.max_facet_distance_value⟩
  | none =>
    match a.max_facet_distance_field with
    | some distance_field =>
      ⟨a.min_facet_angle, Bound.scalar a.max_radius_surface_delaunay_ball_value,
        Bound.field (field_lambda distance_field)⟩
    | none =>
      ⟨a.min_facet_angle, Bound.scalar a.max_radius_surface_delaunay_ball_value,
        Bound.scalar a.max_facet_distance_value⟩

/-- The local `edge_criteria` of `generate_mesh`. -/
def generate_mesh_edge_criteria {Index : Type} (a : Mesh_params F) : Edge_criteria F Index :=
  match a.max_edge_size_at_feature_edges_field with
  | some field => ⟨Bound.field (field_lambda field), a.min_edge_size_at_feature_edges⟩
  | none =>
    ⟨Bound.scalar a.max_edge_size_at_feature_edges_value, a.min_edge_size_at_feature_edges⟩

/-- The local `cell_criteria` of `generate_mesh`. -/
def generate_mesh_cell_criteria {Index : Type} (a : Mesh_params F) : Cell_criteria F Index :=
  match a.max_cell_circumradius_field with
  | some field => ⟨a.max_circumradius_edge_ratio, Bound.field (field_lambda field)⟩
  | none => ⟨a.max_circumradius_edge_ratio, Bound.scalar a.max_cell_circumradius_value⟩

/-- Everything the template `generate_mesh` hands to `make_mesh_3`: the wrapped domain with
its bounds and registered features, the criteria and the optimisation parameters. -/
def generate_mesh_call {Index T : Type} (domain : DomainBase F) (domain_bounds : T)
    (a : Mesh_params F) : Make_mesh_3_call F Index T :=
  -- wrap domain
  let d := fun p : Point_3 F => domain.eval ⟨p.x, p.y, p.z⟩
  let cgal_domain := Mesh_domain.create_implicit_mesh_domain d domain_bounds
  let native_features := convert_feature_edges domain.get_features
  let cgal_domain := cgal_domain.add_features native_features
  let polylines := convert_feature_edges a.extra_feature_edges
  let cgal_domain := cgal_domain.add_features polylines
  let facet_criteria := generate_mesh_facet_criteria a
  let edge_criteria := generate_mesh_edge_criteria a
  let cell_criteria := generate_mesh_cell_criteria a
  let criteria := Mesh_criteria.mk edge_criteria facet_criteria cell_criteria
  { cgal_domain := cgal_domain
    criteria := criteria
    lloyd := a.lloyd
    odt := a.odt
    perturb := a.perturb
    exude := if a.exude then some (a.exude_time_limit, a.exude_sliver_bound) else none }

/-- The state flags `std::ios_base::iostate` of a stream. -/
structure Iostate where
  bad : Bool
  eof : Bool
  fail : Bool
deriving DecidableEq, Repr

/-- The constant `std::ios_base::goodbit`: no flag set. -/
def goodbit : Iostate := ⟨false, false, false⟩

/-- The constant `std::ios_base::failbit`. -/
def failbit : Iostate := ⟨false, false, true⟩

/-- The member function `std::ios::setstate(state)`: sets the given flags in addition to the
current ones. -/
def Iostate.setstate (self state : Iostate) : Iostate :=
  ⟨self.bad || state.bad, self.eof || state.eof, self.fail || state.fail⟩

/-- The member function `std::ios::clear()` with its default argument `goodbit`. -/
def Iostate.clear (_self : Iostate) : Iostate := goodbit

/-- The process-wide state that the entry points mutate: the flags of `std::cerr` and the
seed of `CGAL::get_default_random()`. -/
structure World where
  cerr : Iostate
  default_random : Int
deriving DecidableEq, Repr

/-- The template `generate_mesh<T>`.  `make_mesh_3` is the engine; it either returns the
complex or raises a failure, which `generate_mesh` does not catch.  The result is the failure,
or the complex written to `outfile`, together with the process state at exit. -/
def generate_mesh {Index T E C3t3 : Type}
    (make_mesh_3 : Make_mesh_3_call F Index T → Except E C3t3)
    (domain : DomainBase F) (outfile : String) (domain_bounds : T) (a : Mesh_params F)
    (w : World) : Except E (String × C3t3) × World :=
  let w := { w with default_random := a.seed }
  let w := if !a.verbose then { w with cerr := w.cerr.setstate failbit } else w
  match make_mesh_3 (generate_mesh_call domain domain_bounds a) with
  | Except.error e => (Except.error e, w)
  | Except.ok c3t3 =>
    let w := if !a.verbose then { w with cerr := w.cerr.clear } else w
    (Except.ok (outfile, c3t3), w)

/-- The bounding sphere that the sphere overload of `generate_mesh` builds:
`K::Sphere_3(CGAL::ORIGIN, bounding_sphere_radius2)`. -/
def bounding_sphere (domain : DomainBase F) (bounding_sphere_radius : F) : Sphere_3 F :=
  let bounding_sphere_radius2 :=
    if bounding_sphere_radius > 0 then
      bounding_sphere_radius * bounding_sphere_radius
    else
      -- some wiggle room
      1.01 * domain.get_bounding_sphere_squared_radius
  Sphere_3.mk ORIGIN bounding_sphere_radius2

/-- The overload of `generate_mesh` taking `bounding_sphere_radius`. -/
def generate_mesh_sphere {Index E C3t3 : Type}
    (make_mesh_3 : Make_mesh_3_call F Index (Sphere_3 F) → Except E C3t3)
    (domain : DomainBase F) (outfile : String) (bounding_sphere_radius : F)
    (a : Mesh_params F) (w : World) : Except E (String × C3t3) × World :=
  generate_mesh make_mesh_3 domain outfile (bounding_sphere domain bounding_sphere_radius) a w

/-- The six doubles `bounding_cuboid[0..5]` of a `std::array<double, 6>`. -/
structure Array6 (F : Type) where
  a0 : F
  a1 : F
  a2 : F
  a3 : F
  a4 : F
  a5 : F
deriving DecidableEq, Repr

/-- The local `eps` of the cuboid overload; `std::max` of a three-element initializer list. -/
def cuboid_eps (bounding_cuboid : Array6 F) : F :=
  0.01 * max (max |bounding_cuboid.a3 - bounding_cuboid.a0|
    |bounding_cuboid.a4 - bounding_cuboid.a1|) |bounding_cuboid.a5 - bounding_cuboid.a2|

/-- The local `cuboid` of the cuboid overload of `generate_mesh`. -/
def padded_cuboid (bounding_cuboid : Array6 F) : Iso_cuboid_3 F :=
  -- some wiggle room
  let eps := cuboid_eps bounding_cuboid
  Iso_cuboid_3.mk
    (bounding_cuboid.a0 - eps)
    (bounding_cuboid.a1 - eps)
    (bounding_cuboid.a2 - eps)
    (bounding_cuboid.a3 + eps)
    (bounding_cuboid.a4 + eps)
    (bounding_cuboid.a5 + eps)

/-- The overload of `generate_mesh` taking `bounding_cuboid`. -/
def generate_mesh_cuboid {Index E C3t3 : Type}
    (make_mesh_3 : Make_mesh_3_call F Index (Iso_cuboid_3 F) → Except E C3t3)
    (domain : DomainBase F) (outfile : String) (bounding_cuboid : Array6 F)
    (a : Mesh_params F) (w : World) : Except E (String × C3t3) × World :=
  generate_mesh make_mesh_3 domain outfile (padded_cuboid bounding_cuboid) a w

/-- The parameters of `generate_periodic_mesh` from `lloyd` to `seed`. -/
structure Periodic_params (F : Type) where
  lloyd : Bool
  odt : Bool
  perturb : Bool
  exude : Bool
  manifold : Bool
  max_edge_size_at_feature_edges : F
  min_facet_angle : F
  max_radius_surface_delaunay_ball : F
  max_facet_distance : F
  max_circumradius_edge_ratio : F
  max_cell_circumradius : F
  number_of_copies_in_output : Int
  verbose : Bool
  seed : Int

/-- The named parameters of the `Mesh_criteria` built in `generate_periodic_mesh`. -/
structure Periodic_mesh_criteria (F : Type) where
  edge_size : F
  facet_angle : F
  facet_size : F
  facet_distance : F
  cell_radius_edge_ratio : F
  cell_size : F

/-- The arguments of the call `CGAL::make_periodic_3_mesh_3<C3t3>(...)`. -/
structure Make_periodic_3_mesh_3_call (F : Type) where
  function : Point_3 F → F
  cuboid : Iso_cuboid_3 F
  criteria : Periodic_mesh_criteria F
  manifold : Bool
  lloyd : Bool
  odt : Bool
  perturb : Bool
  exude : Bool

/-- Everything `generate_periodic_mesh` hands to `make_periodic_3_mesh_3`. -/
def generate_periodic_mesh_call (domain : DomainBase F) (bounding_cuboid : Array6 F)
    (a : Periodic_params F) : Make_periodic_3_mesh_3_call F :=
  let cuboid := Iso_cuboid_3.mk bounding_cuboid.a0 bounding_cuboid.a1 bounding_cuboid.a2
    bounding_cuboid.a3 bounding_cuboid.a4 bounding_cuboid.a5
  -- wrap domain
  let d := fun p : Point_3 F => domain.eval ⟨p.x, p.y, p.z⟩
  { function := d
    cuboid := cuboid
    criteria := ⟨a.max_edge_size_at_feature_edges, a.min_facet_angle,
      a.max_radius_surface_delaunay_ball, a.max_facet_distance,
      a.max_circumradius_edge_ratio, a.max_cell_circumradius⟩
    manifold := a.manifold
    lloyd := a.lloyd
    odt := a.odt
    perturb := a.perturb
    exude := a.exude }

/-- The function `generate_periodic_mesh`.  The result is the failure raised by the engine, or
the complex and the number of copies written to `outfile`, with the process state at exit. -/
def generate_periodic_mesh {E C3t3 : Type}
    (make_periodic_3_mesh_3 : Make_periodic_3_mesh_3_call F → Except E C3t3)
    (domain : DomainBase F) (outfile : String) (bounding_cuboid : Array6 F)
    (a : Periodic_params F) (w : World) : Except E (String × C3t3 × Int) × World :=
  let w := { w with default_random := a.seed }
  -- Mesh generation
  let w := if !a.verbose then { w with cerr := w.cerr.setstate failbit } else w
  match make_periodic_3_mesh_3 (generate_periodic_mesh_call domain bounding_cuboid a) with
  | Except.error e => (Except.error e, w)
  | Except.ok c3t3 =>
    let w := if !a.verbose then { w with cerr := w.cerr.clear } else w
    (Except.ok (outfile, c3t3, a.number_of_copies_in_output), w)

/-- The laws of `sin` and `cos` that the statements about rotations use: `sin` is odd, `cos`
is even and `cos 0 = 1`. -/
def Kernel.trig_laws (k : Kernel F) : Prop :=
  (∀ t, k.sin (-t) = -k.sin t) ∧ (∀ t, k.cos (-t) = k.cos t) ∧ k.cos 0 = 1

/-- The resolution policy of the specification for one field-capable bound: the value of
the sizing field at the point when a field is present, the paired constant when not. -/
def resolved_bound (value : F) (field : Option (SizingFieldBase F)) (p : Point_3 F) : F :=
  match field with
  | some f => f.eval ⟨p.x, p.y, p.z⟩
  | none => value

/-- The cuboid `c` strictly contains the box with the six bounds `b = (x0,y0,z0,x1,y1,z1)`:
on every axis its lower bound is strictly below and its upper bound strictly above. -/
def strictly_contains (c : Iso_cuboid_3 F) (b : Array6 F) : Prop :=
  c.min_hx < b.a0 ∧ c.min_hy < b.a1 ∧ c.min_hz < b.a2
    ∧ b.a3 < c.max_hx ∧ b.a4 < c.max_hy ∧ b.a5 < c.max_hz

/-- The cuboid `c` contains the box with the six bounds `b = (x0,y0,z0,x1,y1,z1)`: on every
axis its lower bound is at or below and its upper bound at or above. -/
def contains (c : Iso_cuboid_3 F) (b : Array6 F) : Prop :=
  c.min_hx ≤ b.a0 ∧ c.min_hy ≤ b.a1 ∧ c.min_hz ≤ b.a2
    ∧ b.a3 ≤ c.max_hx ∧ b.a4 ≤ c.max_hy ∧ b.a5 ≤ c.max_hz

/-- The criteria `c` follow the resolution policy of the specification for the parameters `a`:
each of the four field-capable bounds evaluates at every point to `resolved_bound` of its own
constant and field, and the three constant-only bounds are the parameters themselves. -/
def criteria_resolved {Index : Type} (a : Mesh_params F) (c : Mesh_criteria F Index) : Prop :=
  (∀ (p : Point_3 F) (dim : Int) (index : Index),
      c.edge_criteria.length_bound.eval p dim index
        = resolved_bound a.max_edge_size_at_feature_edges_value
            a.max_edge_size_at_feature_edges_field p
      ∧ c.facet_criteria.radius_bound.eval p dim index
        = resolved_bound a.max_radius_surface_delaunay_ball_value
            a.max_radius_surface_delaunay_ball_field p
      ∧ c.facet_criteria.distance_bound.eval p dim index
        = resolved_bound a.max_facet_distance_value a.max_facet_distance_field p
      ∧ c.cell_criteria.radius_bound.eval p dim index
        = resolved_bound a.max_cell_circumradius_value a.max_cell_circumradius_field p)
    ∧ c.edge_criteria.min_length_bound = a.min_edge_size_at_feature_edges
    ∧ c.facet_criteria.angle_bound = a.min_facet_angle
    ∧ c.cell_criteria.radius_edge_bound = a.max_circumradius_edge_ratio

theorem Kernel.trig_laws.sin_zero {k : Kernel F} (h : k.trig_laws) : k.sin 0 = 0 := by
  have h0 := h.1 0
  rw [neg_zero] at h0
  linarith

/-- The rotation by the angle zero is the identity. -/
theorem rotate_zero {k : Kernel F} (h : k.trig_laws) (p : Vec2 F) : rotate k 0 p = p := by
  simp [rotate, h.sin_zero, h.2.2]

/-- The rotation matrix that `Extrude::eval` applies with `sin(t)` and `cos(t)` is the rotation
by the angle `-t`. -/
theorem eval_matrix_eq_rotate_neg {k : Kernel F} (h : k.trig_laws) (t a b : F) :
    (⟨k.cos t * a + k.sin t * b, -k.sin t * a + k.cos t * b⟩ : Vec2 F)
      = rotate k (-t) ⟨a, b⟩ := by
  simp only [rotate, h.1, h.2.1]
  congr 1
  ring

/-- C1. `Extrude::eval`, for a direction with `dz > 0`: the value is `+1` when `z < 0` or
`z > dz`; otherwise, with `beta = z/dz` and `(x', y') = (x - beta*dx, y - beta*dy)`, rotated by
the angle `-beta*alpha` when `alpha != 0`, it is `-1` when `is_inside` holds there and `+1`
when not; at `z = dz` the point is rotated by `-alpha`, and at `z = 0` it is not moved at all. -/
theorem Extrude.eval_contract (k : Kernel F) (self : Extrude F) (x : Vec3 F)
    (hk : k.trig_laws) (hdz : 0 < self.direction_.c2) :
    ((x.c2 < 0 ∨ x.c2 > self.direction_.c2) → self.eval k x = 1)
    ∧ (¬ (x.c2 < 0 ∨ x.c2 > self.direction_.c2) →
        self.eval k x =
          if self.poly_.is_inside k
              (if self.alpha_ ≠ 0 then
                rotate k (-(x.c2 / self.direction_.c2 * self.alpha_))
                  ⟨x.c0 - x.c2 / self.direction_.c2 * self.direction_.c0,
                   x.c1 - x.c2 / self.direction_.c2 * self.direction_.c1⟩
              else
                ⟨x.c0 - x.c2 / self.direction_.c2 * self.direction_.c0,
                 x.c1 - x.c2 / self.direction_.c2 * self.direction_.c1⟩)
          then -1 else 1)
    ∧ (x.c2 = self.direction_.c2 →
        self.eval k x =
          if self.poly_.is_inside k
              (rotate k (-self.alpha_) ⟨x.c0 - self.direction_.c0, x.c1 - self.direction_.c1⟩)
          then -1 else 1)
    ∧ (x.c2 = 0 → self.eval k x = if self.poly_.is_inside k ⟨x.c0, x.c1⟩ then -1 else 1) := by
  have hne : self.direction_.c2 ≠ 0 := ne_of_gt hdz
  refine ⟨?_, ?_, ?_, ?_⟩
  · intro h
    simp [Extrude.eval, h]
  · intro h
    simp only [Extrude.eval, if_neg h]
    by_cases ha : self.alpha_ = 0
    · simp [ha]
    · simp only [ne_eq, ha, not_false_eq_true, if_true]
      rw [eval_matrix_eq_rotate_neg hk]
  · intro hz
    have hout : ¬ (x.c2 < 0 ∨ x.c2 > self.direction_.c2) := by
      rw [hz]
      simp [not_lt.mpr hdz.le]
    simp only [Extrude.eval, if_neg hout]
    have hbeta : x.c2 / self.direction_.c2 = 1 := by rw [hz]; exact div_self hne
    by_cases ha : self.alpha_ = 0
    · simp [ha, hbeta, rotate_zero hk]
    · simp only [ne_eq, ha, not_false_eq_true, if_true]
      rw [eval_matrix_eq_rotate_neg hk, hbeta]
      simp
  · intro hz
    have hout : ¬ (x.c2 < 0 ∨ x.c2 > self.direction_.c2) := by
      rw [hz]
      simp [not_lt.mpr hdz.le]
    simp only [Extrude.eval, if_neg hout]
    by_cases ha : self.alpha_ = 0
    · simp [ha, hz]
    · simp only [ne_eq, ha, not_false_eq_true, if_true]
      rw [eval_matrix_eq_rotate_neg hk, hz]
      simp [rotate_zero hk]

/-- The contract of `Extrude::eval` at the top of the unit square extruded along `(1, 0, 2)`
with the twist `pi`, over the reals with the real sine and cosine. -/
theorem Extrude.eval_contract_witness :
    (Kernel.mk Real.sin Real.cos (fun _ _ => Bounded_side.ON_BOUNDARY)).trig_laws
    ∧ (0 : ℝ) < 2
    ∧ ((2 : ℝ) = 2 →
        Extrude.eval (Kernel.mk Real.sin Real.cos (fun _ _ => Bounded_side.ON_BOUNDARY))
            ⟨⟨[⟨0, 0⟩, ⟨1, 0⟩, ⟨1, 1⟩, ⟨0, 1⟩]⟩, ⟨1, 0, 2⟩, Real.pi⟩ ⟨1 / 2, -1 / 2, 2⟩
          = if Polygon2D.is_inside
                (Kernel.mk Real.sin Real.cos (fun _ _ => Bounded_side.ON_BOUNDARY))
                ⟨[⟨0, 0⟩, ⟨1, 0⟩, ⟨1, 1⟩, ⟨0, 1⟩]⟩
                (rotate (Kernel.mk Real.sin Real.cos (fun _ _ => Bounded_side.ON_BOUNDARY))
                  (-Real.pi) ⟨1 / 2 - 1, -1 / 2 - 0⟩)
            then -1 else 1) :=
  have hk : (Kernel.mk Real.sin Real.cos (fun _ _ => Bounded_side.ON_BOUNDARY)).trig_laws :=
    ⟨Real.sin_neg, Real.cos_neg, Real.cos_zero⟩
  ⟨hk, by norm_num,
    (Extrude.eval_contract (Kernel.mk Real.sin Real.cos (fun _ _ => Bounded_side.ON_BOUNDARY))
      ⟨⟨[⟨0, 0⟩, ⟨1, 0⟩, ⟨1, 1⟩, ⟨0, 1⟩]⟩, ⟨1, 0, 2⟩, Real.pi⟩ ⟨1 / 2, -1 / 2, 2⟩
      hk (by norm_num)).2.2.1⟩

/-- C2. `Polygon2D::is_inside` is true when the bounded-side test places the point strictly
inside the polygon, true when it places it on the boundary (an edge or a vertex), false when
it places it strictly outside: it is true exactly for `ON_BOUNDED_SIDE` and `ON_BOUNDARY`. -/
theorem Polygon2D.is_inside_iff_bounded_or_boundary {R : Type} (k : Kernel R)
    (self : Polygon2D R) (point : Vec2 R) :
    (k.bounded_side_2 self.points ⟨point.c0, point.c1⟩ = Bounded_side.ON_BOUNDED_SIDE →
        self.is_inside k point = true)
    ∧ (k.bounded_side_2 self.points ⟨point.c0, point.c1⟩ = Bounded_side.ON_BOUNDARY →
        self.is_inside k point = true)
    ∧ (k.bounded_side_2 self.points ⟨point.c0, point.c1⟩ = Bounded_side.ON_UNBOUNDED_SIDE →
        self.is_inside k point = false)
    ∧ (self.is_inside k point = true ↔
        k.bounded_side_2 self.points ⟨point.c0, point.c1⟩ = Bounded_side.ON_BOUNDED_SIDE
        ∨ k.bounded_side_2 self.points ⟨point.c0, point.c1⟩ = Bounded_side.ON_BOUNDARY) := by
  unfold Polygon2D.is_inside
  cases h : k.bounded_side_2 self.points ⟨point.c0, point.c1⟩ <;> simp [h]

/-! ### The engine call of `generate_mesh` -/

/-- The template `generate_mesh` calls the engine once, on `generate_mesh_call`, and returns
the engine's failure or the engine's complex with the output path. -/
theorem generate_mesh_result {Index T E C3t3 : Type}
    (make_mesh_3 : Make_mesh_3_call F Index T → Except E C3t3)
    (domain : DomainBase F) (outfile : String) (domain_bounds : T) (a : Mesh_params F)
    (w : World) :
    (generate_mesh make_mesh_3 domain outfile domain_bounds a w).1
      = (make_mesh_3 (generate_mesh_call domain domain_bounds a)).map (fun c => (outfile, c)) := by
  unfold generate_mesh
  cases make_mesh_3 (generate_mesh_call domain domain_bounds a) <;> rfl

/-- The sphere overload calls the engine on the call built with `bounding_sphere`, and the
cuboid overload on the call built with `padded_cuboid`. -/
theorem generate_mesh_overloads_result {Index E C3t3 : Type}
    (sphere_engine : Make_mesh_3_call F Index (Sphere_3 F) → Except E C3t3)
    (cuboid_engine : Make_mesh_3_call F Index (Iso_cuboid_3 F) → Except E C3t3)
    (domain : DomainBase F) (outfile : String) (r : F) (b : Array6 F) (a : Mesh_params F)
    (w : World) :
    (generate_mesh_sphere sphere_engine domain outfile r a w).1
      = (sphere_engine (generate_mesh_call domain (bounding_sphere domain r) a)).map
          (fun c => (outfile, c))
    ∧ (generate_mesh_cuboid cuboid_engine domain outfile b a w).1
      = (cuboid_engine (generate_mesh_call domain (padded_cuboid b) a)).map
          (fun c => (outfile, c)) :=
  ⟨generate_mesh_result sphere_engine domain outfile (bounding_sphere domain r) a w,
    generate_mesh_result cuboid_engine domain outfile (padded_cuboid b) a w⟩

/-- C3. Whatever the engine, `generate_mesh` and its sphere and cuboid overloads call it on
criteria in which each of the four field-capable bounds (max edge size at feature edges, max
facet surface-Delaunay-ball radius, max facet distance, max cell circumradius) evaluates at
every point to the value of its own sizing field when that field is present and to its paired
constant when it is absent, independently of the other bounds; min edge size, min facet angle
and max circumradius/edge ratio are passed unchanged. -/
theorem generate_mesh_criteria_resolution {Index T : Type} (domain : DomainBase F)
    (domain_bounds : T) (r : F) (b : Array6 F) (a : Mesh_params F) :
    (∃ call : Make_mesh_3_call F Index T,
      (∀ (E C3t3 : Type) (make_mesh_3 : Make_mesh_3_call F Index T → Except E C3t3)
          (outfile : String) (w : World),
        (generate_mesh make_mesh_3 domain outfile domain_bounds a w).1
          = (make_mesh_3 call).map (fun c => (outfile, c)))
      ∧ criteria_resolved a call.criteria)
    ∧ (∃ call : Make_mesh_3_call F Index (Sphere_3 F),
      (∀ (E C3t3 : Type) (make_mesh_3 : Make_mesh_3_call F Index (Sphere_3 F) → Except E C3t3)
          (outfile : String) (w : World),
        (generate_mesh_sphere make_mesh_3 domain outfile r a w).1
          = (make_mesh_3 call).map (fun c => (outfile, c)))
      ∧ criteria_resolved a call.criteria)
    ∧ (∃ call : Make_mesh_3_call F Index (Iso_cuboid_3 F),
      (∀ (E C3t3 : Type)
          (make_mesh_3 : Make_mesh_3_call F Index (Iso_cuboid_3 F) → Except E C3t3)
          (outfile : String) (w : World),
        (generate_mesh_cuboid make_mesh_3 domain outfile b a w).1
          = (make_mesh_3 call).map (fun c => (outfile, c)))
      ∧ criteria_resolved a call.criteria) := by
  have hres : ∀ (T' : Type) (bounds : T'),
      criteria_resolved a
        (generate_mesh_call domain bounds a : Make_mesh_3_call F Index T').criteria := by
    intro T' bounds
    simp only [criteria_resolved, generate_mesh_call, generate_mesh_edge_criteria,
      generate_mesh_facet_criteria, generate_mesh_cell_criteria, resolved_bound]
    refine ⟨fun p dim index => ⟨?_, ?_, ?_, ?_⟩, ?_, ?_, ?_⟩
    · cases a.max_edge_size_at_feature_edges_field <;> rfl
    · cases a.max_radius_surface_delaunay_ball_field <;> cases a.max_facet_distance_field <;>
        rfl
    · cases a.max_radius_surface_delaunay_ball_field <;> cases a.max_facet_distance_field <;>
        rfl
    · cases a.max_cell_circumradius_field <;> rfl
    · cases a.max_edge_size_at_feature_edges_field <;> rfl
    · cases a.max_radius_surface_delaunay_ball_field <;> cases a.max_facet_distance_field <;>
        rfl
    · cases a.max_cell_circumradius_field <;> rfl
  refine ⟨⟨generate_mesh_call domain domain_bounds a, ?_, hres T domain_bounds⟩,
    ⟨generate_mesh_call domain (bounding_sphere domain r) a, ?_, hres _ _⟩,
    ⟨generate_mesh_call domain (padded_cuboid b) a, ?_, hres _ _⟩⟩
  · intro E C3t3 make_mesh_3 outfile w
    exact generate_mesh_result make_mesh_3 domain outfile domain_bounds a w
  · intro E C3t3 make_mesh_3 outfile w
    exact generate_mesh_result make_mesh_3 domain outfile (bounding_sphere domain r) a w
  · intro E C3t3 make_mesh_3 outfile w
    exact generate_mesh_result make_mesh_3 domain outfile (padded_cuboid b) a w

/-! ### Bounding volumes -/

/-- C4. Whatever the engine, the sphere overload of `generate_mesh` calls it on a domain
bounded by a sphere centred at the origin whose squared radius is `r*r` when `r > 0` and
`1.01 * domain.get_bounding_sphere_squared_radius()` otherwise, in particular for `r = 0` and
for negative `r`. -/
theorem generate_mesh_sphere_squared_radius {Index : Type} (domain : DomainBase F) (r : F)
    (a : Mesh_params F) :
    ∃ call : Make_mesh_3_call F Index (Sphere_3 F),
      (∀ (E C3t3 : Type) (make_mesh_3 : Make_mesh_3_call F Index (Sphere_3 F) → Except E C3t3)
          (outfile : String) (w : World),
        (generate_mesh_sphere make_mesh_3 domain outfile r a w).1
          = (make_mesh_3 call).map (fun c => (outfile, c)))
      ∧ call.cgal_domain.bounds.center = ⟨0, 0, 0⟩
      ∧ (0 < r → call.cgal_domain.bounds.squared_radius = r * r)
      ∧ (¬ 0 < r →
          call.cgal_domain.bounds.squared_radius
            = 1.01 * domain.get_bounding_sphere_squared_radius)
      ∧ (r = 0 →
          call.cgal_domain.bounds.squared_radius
            = 1.01 * domain.get_bounding_sphere_squared_radius)
      ∧ (r < 0 →
          call.cgal_domain.bounds.squared_radius
            = 1.01 * domain.get_bounding_sphere_squared_radius) := by
  have hcase : ¬ 0 < r →
      (generate_mesh_call domain (bounding_sphere domain r) a : Make_mesh_3_call F Index _
        ).cgal_domain.bounds.squared_radius
        = 1.01 * domain.get_bounding_sphere_squared_radius := by
    intro h
    simp only [generate_mesh_call, Mesh_domain.add_features,
      Mesh_domain.create_implicit_mesh_domain, bounding_sphere, gt_iff_lt, if_neg h]
  refine ⟨generate_mesh_call domain (bounding_sphere domain r) a, ?_, rfl, ?_, hcase, ?_, ?_⟩
  · intro E C3t3 make_mesh_3 outfile w
    exact generate_mesh_result make_mesh_3 domain outfile (bounding_sphere domain r) a w
  · intro h
    simp only [generate_mesh_call, Mesh_domain.add_features,
      Mesh_domain.create_implicit_mesh_domain, bounding_sphere, gt_iff_lt, if_pos h]
  · intro h
    exact hcase (by rw [h]; exact lt_irrefl 0)
  · intro h
    exact hcase (not_lt.mpr h.le)

/-- The padding `eps` of the cuboid overload is never negative. -/
theorem cuboid_eps_nonneg (b : Array6 F) : 0 ≤ cuboid_eps b := by
  unfold cuboid_eps
  have h : 0 ≤ max (max |b.a3 - b.a0| |b.a4 - b.a1|) |b.a5 - b.a2| :=
    le_max_of_le_right (abs_nonneg _)
  have h001 : (0 : F) ≤ 0.01 := by norm_num
  exact mul_nonneg h001 h

/-- The cuboid overload of `generate_mesh` at the box whose six bounds are
`(1, 2, 3, 1, 2, 3)`, with an engine that returns the call it receives: the cuboid handed to
the engine is the input box itself, so it does not strictly contain it. -/
theorem padded_cuboid_degenerate_not_strict :
    ∃ call : Make_mesh_3_call ℚ Unit (Iso_cuboid_3 ℚ),
      (generate_mesh_cuboid
          (fun c : Make_mesh_3_call ℚ Unit (Iso_cuboid_3 ℚ) =>
            (Except.ok c : Except String (Make_mesh_3_call ℚ Unit (Iso_cuboid_3 ℚ))))
          (⟨fun _ => 1, 0, []⟩ : DomainBase ℚ) "out.mesh" ⟨1, 2, 3, 1, 2, 3⟩
          ⟨[], false, false, false, false, 0, 1, none, 0, 1, none, 1, none, 2, 1, none, 0, 0,
            true, 0⟩
          ⟨goodbit, 0⟩).1 = Except.ok ("out.mesh", call)
      ∧ call.cgal_domain.bounds = ⟨1, 2, 3, 1, 2, 3⟩
      ∧ ¬ strictly_contains call.cgal_domain.bounds ⟨1, 2, 3, 1, 2, 3⟩ := by
  refine ⟨generate_mesh_call (⟨fun _ => 1, 0, []⟩ : DomainBase ℚ)
      (padded_cuboid (⟨1, 2, 3, 1, 2, 3⟩ : Array6 ℚ))
      ⟨[], false, false, false, false, 0, 1, none, 0, 1, none, 1, none, 2, 1, none, 0, 0,
        true, 0⟩, rfl, ?_, ?_⟩
  · norm_num [generate_mesh_call, Mesh_domain.add_features,
      Mesh_domain.create_implicit_mesh_domain, padded_cuboid, cuboid_eps]
  · norm_num [strictly_contains, generate_mesh_call, Mesh_domain.add_features,
      Mesh_domain.create_implicit_mesh_domain, padded_cuboid, cuboid_eps]

/-- C5 (amended). Whatever the engine, the cuboid overload of `generate_mesh` calls it on a
domain bounded by the cuboid `(x0-eps, y0-eps, z0-eps, x1+eps, y1+eps, z1+eps)` with
`eps = 0.01 * max(|x1-x0|, |y1-y0|, |z1-z0|)`, which is never negative, so that cuboid contains
the input box: on every axis its lower bound is at or below the input lower bound and its
upper bound at or above the input upper bound. -/
theorem generate_mesh_cuboid_contains {Index : Type} (domain : DomainBase F) (b : Array6 F)
    (a : Mesh_params F) :
    ∃ (call : Make_mesh_3_call F Index (Iso_cuboid_3 F)) (eps : F),
      (∀ (E C3t3 : Type)
          (make_mesh_3 : Make_mesh_3_call F Index (Iso_cuboid_3 F) → Except E C3t3)
          (outfile : String) (w : World),
        (generate_mesh_cuboid make_mesh_3 domain outfile b a w).1
          = (make_mesh_3 call).map (fun c => (outfile, c)))
      ∧ eps = 0.01 * max (max |b.a3 - b.a0| |b.a4 - b.a1|) |b.a5 - b.a2|
      ∧ 0 ≤ eps
      ∧ call.cgal_domain.bounds
        = ⟨b.a0 - eps, b.a1 - eps, b.a2 - eps, b.a3 + eps, b.a4 + eps, b.a5 + eps⟩
      ∧ contains call.cgal_domain.bounds b := by
  have heps : 0 ≤ cuboid_eps b := cuboid_eps_nonneg b
  refine ⟨generate_mesh_call domain (padded_cuboid b) a, cuboid_eps b, ?_, rfl, heps, rfl, ?_⟩
  · intro E C3t3 make_mesh_3 outfile w
    exact generate_mesh_result make_mesh_3 domain outfile (padded_cuboid b) a w
  · simp only [contains, generate_mesh_call, Mesh_domain.add_features,
      Mesh_domain.create_implicit_mesh_domain, padded_cuboid]
    refine ⟨?_, ?_, ?_, ?_, ?_, ?_⟩ <;> linarith

/-- C6. Whatever the engine, the cuboid overload of `generate_mesh` computes one shared
`eps = 0.01 * max(|x1-x0|, |y1-y0|, |z1-z0|)` and calls the engine on a domain bounded by
exactly the cuboid `(x0-eps, y0-eps, z0-eps, x1+eps, y1+eps, z1+eps)`: each of the six faces is
moved by that same `eps`, not by an amount of its own axis. -/
theorem padded_cuboid_shared_eps {Index : Type} (domain : DomainBase F) (b : Array6 F)
    (a : Mesh_params F) :
    ∃ (call : Make_mesh_3_call F Index (Iso_cuboid_3 F)) (eps : F),
      (∀ (E C3t3 : Type)
          (make_mesh_3 : Make_mesh_3_call F Index (Iso_cuboid_3 F) → Except E C3t3)
          (outfile : String) (w : World),
        (generate_mesh_cuboid make_mesh_3 domain outfile b a w).1
          = (make_mesh_3 call).map (fun c => (outfile, c)))
      ∧ eps = 0.01 * max |b.a3 - b.a0| (max |b.a4 - b.a1| |b.a5 - b.a2|)
      ∧ call.cgal_domain.bounds
        = ⟨b.a0 - eps, b.a1 - eps, b.a2 - eps, b.a3 + eps, b.a4 + eps, b.a5 + eps⟩ := by
  refine ⟨generate_mesh_call domain (padded_cuboid b) a, cuboid_eps b, ?_, ?_, rfl⟩
  · intro E C3t3 make_mesh_3 outfile w
    exact generate_mesh_result make_mesh_3 domain outfile (padded_cuboid b) a w
  · unfold cuboid_eps
    rw [max_assoc]

/-! ### Feature edges -/

/-- A loop that pushes `f x` to the back for every `x` of a list, in order, appends the mapped
list. -/
theorem foldl_push_back_eq_map {α β : Type} (f : α → β) (xs : List α) (acc : List β) :
    xs.foldl (fun acc x => acc ++ [f x]) acc = acc ++ xs.map f := by
  induction xs generalizing acc with
  | nil => simp
  | cons x xs ih => simp [ih]

/-- The function `convert_feature_edges` maps every point of every polyline, keeping the
polylines and their points in order. -/
theorem convert_feature_edges_eq_map (feature_edges : Features F) :
    convert_feature_edges feature_edges
      = feature_edges.map (List.map (fun point => Point_3.mk point.c0 point.c1 point.c2)) := by
  unfold convert_feature_edges
  rw [foldl_push_back_eq_map
    (fun feature_edge : List (Vec3 F) =>
      feature_edge.foldl (fun polyline point => polyline ++ [Point_3.mk point.c0 point.c1 point.c2])
        [])]
  simp [foldl_push_back_eq_map]

/-- Reading back the coordinates of converted polylines gives the polylines converted. -/
theorem coordinates_convert_feature_edges (feature_edges : Features F) :
    (convert_feature_edges feature_edges).map (List.map Point_3.coordinates) = feature_edges := by
  rw [convert_feature_edges_eq_map, List.map_map]
  have h : (List.map Point_3.coordinates ∘
      List.map (fun point : Vec3 F => Point_3.mk point.c0 point.c1 point.c2)) = id := by
    funext l
    have hpt : (Point_3.coordinates ∘
        fun point : Vec3 F => Point_3.mk point.c0 point.c1 point.c2) = id := by
      funext point
      rfl
    simp [hpt]
  rw [h, List.map_id]

/-- C10. Whatever the engine, `generate_mesh` calls it on a domain whose registered feature
edges are, in order, the polylines of `domain.get_features()` followed by the extra polylines:
the conversion keeps the number of polylines, their order, the number and order of the points
of each polyline and every coordinate, so nothing is deduplicated, merged or dropped and a
polyline given twice is registered twice. -/
theorem generate_mesh_registered_features {Index T : Type} (domain : DomainBase F)
    (domain_bounds : T) (a : Mesh_params F) :
    ∃ call : Make_mesh_3_call F Index T,
      (∀ (E C3t3 : Type) (make_mesh_3 : Make_mesh_3_call F Index T → Except E C3t3)
          (outfile : String) (w : World),
        (generate_mesh make_mesh_3 domain outfile domain_bounds a w).1
          = (make_mesh_3 call).map (fun c => (outfile, c)))
      ∧ call.cgal_domain.features
        = (domain.get_features ++ a.extra_feature_edges).map
            (List.map (fun point => Point_3.mk point.c0 point.c1 point.c2))
      ∧ call.cgal_domain.features.map (List.map Point_3.coordinates)
        = domain.get_features ++ a.extra_feature_edges
      ∧ call.cgal_domain.features.length
        = domain.get_features.length + a.extra_feature_edges.length
      ∧ (∀ polyline : List (Vec3 F),
          (call.cgal_domain.features.map (List.map Point_3.coordinates)).count polyline
            = domain.get_features.count polyline + a.extra_feature_edges.count polyline) := by
  have hreg : (generate_mesh_call domain domain_bounds a : Make_mesh_3_call F Index T
        ).cgal_domain.features
      = convert_feature_edges domain.get_features
          ++ convert_feature_edges a.extra_feature_edges := by
    simp [generate_mesh_call, Mesh_domain.add_features, Mesh_domain.create_implicit_mesh_domain]
  have hcoord : ((generate_mesh_call domain domain_bounds a : Make_mesh_3_call F Index T
        ).cgal_domain.features).map (List.map Point_3.coordinates)
      = domain.get_features ++ a.extra_feature_edges := by
    rw [hreg, List.map_append, coordinates_convert_feature_edges,
      coordinates_convert_feature_edges]
  refine ⟨generate_mesh_call domain domain_bounds a, ?_, ?_, hcoord, ?_, ?_⟩
  · intro E C3t3 make_mesh_3 outfile w
    exact generate_mesh_result make_mesh_3 domain outfile domain_bounds a w
  · rw [hreg, convert_feature_edges_eq_map, convert_feature_edges_eq_map, List.map_append]
  · have h := congrArg List.length hcoord
    simpa using h
  · intro polyline
    rw [hcoord, List.count_append]

/-! ### `Extrude::get_features` -/

/-- The loop of `get_features` appends the polylines `edge 0`, ..., `edge (n-2)`. -/
theorem push_back_loop_eq_append {α : Type} (n : Nat) (edge : Nat → α) (features : List α) :
    push_back_loop n edge features = features ++ (List.range (n - 1)).map edge :=
  foldl_push_back_eq_map edge (List.range (n - 1)) features

/-- The edges `i -> i+1` for `i < m` followed by the closing edge `m -> 0` are the edges
`i -> (i+1) mod (m+1)` for `i < m+1`. -/
theorem closed_polygon_edges {α : Type} (m : Nat) (g : Nat → Nat → α) :
    (List.range m).map (fun i => g i (i + 1)) ++ [g m 0]
      = (List.range (m + 1)).map (fun i => g i ((i + 1) % (m + 1))) := by
  rw [List.range_succ, List.map_append, List.map_singleton, Nat.mod_self]
  congr 1
  apply List.map_congr_left
  intro i hi
  rw [Nat.mod_eq_of_lt (Nat.succ_lt_succ (List.mem_range.mp hi))]

/-- An index below the number of vertices reads a vertex of the polygon. -/
theorem Polygon2D.get_mem (self : Polygon2D F) (i : Nat) (hi : i < self.points.length) :
    self.get i ∈ self.points := by
  unfold Polygon2D.get
  rw [List.getD_eq_getElem _ _ hi]
  exact List.getElem_mem hi

/-- For a polygon with a vertex, `get_features` returns the polylines of `features_spec`. -/
theorem Extrude.get_features_some_spec (k : Kernel F) (self : Extrude F)
    (hn : 1 ≤ self.poly_.points.length) :
    self.get_features k = some (features_spec k self) := by
  obtain ⟨m, hm⟩ : ∃ m, self.poly_.points.length = m + 1 :=
    ⟨self.poly_.points.length - 1, by omega⟩
  unfold Extrude.get_features features_spec
  simp only [hm, Nat.succ_ne_zero, if_false, push_back_loop_eq_append, Nat.add_sub_cancel,
    List.nil_append]
  rw [← closed_polygon_edges m
      (fun i j => [base_vertex (self.poly_.get i), base_vertex (self.poly_.get j)]),
    ← closed_polygon_edges m
      (fun i j => [top_vertex k self (self.poly_.get i), top_vertex k self (self.poly_.get j)])]
  simp only [base_vertex, top_vertex, rotate, List.append_assoc]

/-- C8. For a polygon with `n >= 1` vertices `get_features` returns exactly `2n` polylines of
two points each, in this order: for `i = 0..n-1` the base edge
`(p_i, 0) -> (p_((i+1) mod n), 0)`, then for `i = 0..n-1` the top edge
`T(p_i) -> T(p_((i+1) mod n))` with `T(p) = (R(alpha) p + (dx, dy), dz)`; every polyline joins
two base vertices or two top vertices, never a base vertex and a top vertex. -/
theorem Extrude.get_features_eq_spec (k : Kernel F) (self : Extrude F)
    (hn : 1 ≤ self.poly_.points.length) :
    self.get_features k = some (features_spec k self)
    ∧ (features_spec k self).length = 2 * self.poly_.points.length
    ∧ (∀ polyline ∈ features_spec k self, polyline.length = 2)
    ∧ (∀ polyline ∈ features_spec k self,
        (∃ p ∈ self.poly_.points, ∃ q ∈ self.poly_.points,
          polyline = [base_vertex p, base_vertex q])
        ∨ (∃ p ∈ self.poly_.points, ∃ q ∈ self.poly_.points,
          polyline = [top_vertex k self p, top_vertex k self q])) := by
  have hmod : ∀ i, (i + 1) % self.poly_.points.length < self.poly_.points.length :=
    fun i => Nat.mod_lt _ hn
  refine ⟨self.get_features_some_spec k hn, ?_, ?_, ?_⟩
  · simp only [features_spec, List.length_append, List.length_map, List.length_range]
    omega
  · intro polyline hmem
    simp only [features_spec, List.mem_append, List.mem_map, List.mem_range] at hmem
    rcases hmem with ⟨i, _, rfl⟩ | ⟨i, _, rfl⟩ <;> rfl
  · intro polyline hmem
    simp only [features_spec, List.mem_append, List.mem_map, List.mem_range] at hmem
    rcases hmem with ⟨i, hi, rfl⟩ | ⟨i, hi, rfl⟩
    · exact Or.inl ⟨_, self.poly_.get_mem i hi, _, self.poly_.get_mem _ (hmod i), rfl⟩
    · exact Or.inr ⟨_, self.poly_.get_mem i hi, _, self.poly_.get_mem _ (hmod i), rfl⟩

/-- C8 at the triangle `(1,0), (0,1), (0,0)` extruded along `(-1, 0, 1)` without twist (the
sine and cosine are only read at the angle zero). -/
theorem Extrude.get_features_eq_spec_witness :
    1 ≤ ([⟨1, 0⟩, ⟨0, 1⟩, ⟨0, 0⟩] : List (Point_2 ℚ)).length
    ∧ Extrude.get_features (Kernel.mk (fun _ => 0) (fun _ => 1) (fun _ _ => Bounded_side.ON_BOUNDARY))
        (⟨⟨[⟨1, 0⟩, ⟨0, 1⟩, ⟨0, 0⟩]⟩, ⟨-1, 0, 1⟩, 0⟩ : Extrude ℚ)
      = some [[⟨1, 0, 0⟩, ⟨0, 1, 0⟩], [⟨0, 1, 0⟩, ⟨0, 0, 0⟩], [⟨0, 0, 0⟩, ⟨1, 0, 0⟩],
          [⟨0, 0, 1⟩, ⟨-1, 1, 1⟩], [⟨-1, 1, 1⟩, ⟨-1, 0, 1⟩], [⟨-1, 0, 1⟩, ⟨0, 0, 1⟩]] :=
  ⟨by decide,
    (Extrude.get_features_eq_spec
      (Kernel.mk (fun _ => 0) (fun _ => 1) (fun _ _ => Bounded_side.ON_BOUNDARY))
      (⟨⟨[⟨1, 0⟩, ⟨0, 1⟩, ⟨0, 0⟩]⟩, ⟨-1, 0, 1⟩, 0⟩ : Extrude ℚ) (by decide)).1.trans
      (by norm_num [features_spec, base_vertex, top_vertex, rotate, Polygon2D.get,
        List.range_succ])⟩

/-! ### `Extrude::get_bounding_sphere_squared_radius` -/

/-- A loop whose step never decreases the accumulator ends at or above its start. -/
theorem foldl_ge_start {β : Type} (f : F → β → F) (hf : ∀ m x, m ≤ f m x) (xs : List β)
    (acc : F) : acc ≤ xs.foldl f acc := by
  induction xs generalizing acc with
  | nil => exact le_refl acc
  | cons x xs ih => exact le_trans (hf acc x) (ih (f acc x))

/-- A loop whose step never decreases the accumulator and lifts it to at least `g x` at the
element `x` ends at or above `g x` for every element of the list. -/
theorem foldl_ge_of_mem {β : Type} (f : F → β → F) (hf : ∀ m x, m ≤ f m x) (g : β → F)
    (hg : ∀ m x, g x ≤ f m x) (xs : List β) (acc : F) (x : β) (hx : x ∈ xs) :
    g x ≤ xs.foldl f acc := by
  induction xs generalizing acc with
  | nil => simp at hx
  | cons y ys ih =>
    rcases List.mem_cons.mp hx with rfl | hmem
    · exact le_trans (hg acc x) (foldl_ge_start f hf ys (f acc x))
    · exact ih (f acc y) hmem

/-- For every vertex `p` of the polygon, `get_bounding_sphere_squared_radius()` is at least
the squared norm of `p` at the base and of `p` translated by the direction, without rotation. -/
theorem Extrude.bounding_sphere_ge_vertex (self : Extrude F) (p : Point_2 F)
    (hp : p ∈ self.poly_.points) :
    p.x * p.x + p.y * p.y ≤ self.get_bounding_sphere_squared_radius
    ∧ (p.x + self.direction_.c0) * (p.x + self.direction_.c0)
        + (p.y + self.direction_.c1) * (p.y + self.direction_.c1)
        + self.direction_.c2 * self.direction_.c2
      ≤ self.get_bounding_sphere_squared_radius := by
  unfold Extrude.get_bounding_sphere_squared_radius
  constructor
  · apply foldl_ge_of_mem _ _ (fun q : Point_2 F => q.x * q.x + q.y * q.y) _ _ _ p hp
    · intro m q
      simp only
      split_ifs <;> linarith
    · intro m q
      simp only
      split_ifs <;> linarith
  · apply foldl_ge_of_mem _ _
      (fun q : Point_2 F => (q.x + self.direction_.c0) * (q.x + self.direction_.c0)
        + (q.y + self.direction_.c1) * (q.y + self.direction_.c1)
        + self.direction_.c2 * self.direction_.c2) _ _ _ p hp
    · intro m q
      simp only
      split_ifs <;> linarith
    · intro m q
      simp only
      split_ifs <;> linarith

/-- Without twist (`sin alpha = 0` and `cos alpha = 1`) every point of every polyline of
`features_spec` is within `get_bounding_sphere_squared_radius()` of the origin. -/
theorem Extrude.bounding_sphere_covers_untwisted (k : Kernel F) (self : Extrude F)
    (hsin : k.sin self.alpha_ = 0) (hcos : k.cos self.alpha_ = 1) :
    ∀ polyline ∈ features_spec k self, ∀ pt ∈ polyline,
      pt.squared_norm ≤ self.get_bounding_sphere_squared_radius := by
  have hbase : ∀ p ∈ self.poly_.points,
      (base_vertex p).squared_norm ≤ self.get_bounding_sphere_squared_radius := by
    intro p hp
    have h := (self.bounding_sphere_ge_vertex p hp).1
    simp only [base_vertex, Vec3.squared_norm]
    linarith
  have htop : ∀ p ∈ self.poly_.points,
      (top_vertex k self p).squared_norm ≤ self.get_bounding_sphere_squared_radius := by
    intro p hp
    have h := (self.bounding_sphere_ge_vertex p hp).2
    simp only [top_vertex, rotate, Vec3.squared_norm, hsin, hcos]
    linarith
  intro polyline hmem pt hpt
  simp only [features_spec, List.mem_append, List.mem_map, List.mem_range] at hmem
  rcases hmem with ⟨i, hi, rfl⟩ | ⟨i, hi, rfl⟩
  · have hj : (i + 1) % self.poly_.points.length < self.poly_.points.length :=
      Nat.mod_lt _ (Nat.lt_of_le_of_lt (Nat.zero_le i) hi)
    simp only [List.mem_cons, List.mem_singleton, List.not_mem_nil, or_false] at hpt
    rcases hpt with rfl | rfl
    · exact hbase _ (self.poly_.get_mem i hi)
    · exact hbase _ (self.poly_.get_mem _ hj)
  · have hj : (i + 1) % self.poly_.points.length < self.poly_.points.length :=
      Nat.mod_lt _ (Nat.lt_of_le_of_lt (Nat.zero_le i) hi)
    simp only [List.mem_cons, List.mem_singleton, List.not_mem_nil, or_false] at hpt
    rcases hpt with rfl | rfl
    · exact htop _ (self.poly_.get_mem i hi)
    · exact htop _ (self.poly_.get_mem _ hj)

/-- C7, at the triangle `(1,0), (0,1), (0,0)` extruded along `(-1, 0, 1)` with the twist `pi`:
`get_bounding_sphere_squared_radius()` is `3`, and `get_features()` returns the top vertex
`(-2, 0, 1)`, whose squared distance from the origin is `5`. -/
theorem Extrude.bounding_sphere_misses_twisted_top :
    Extrude.get_bounding_sphere_squared_radius
        (⟨⟨[⟨1, 0⟩, ⟨0, 1⟩, ⟨0, 0⟩]⟩, ⟨-1, 0, 1⟩, Real.pi⟩ : Extrude ℝ) = 3
    ∧ Extrude.get_features
        (Kernel.mk Real.sin Real.cos (fun _ _ => Bounded_side.ON_BOUNDARY))
        (⟨⟨[⟨1, 0⟩, ⟨0, 1⟩, ⟨0, 0⟩]⟩, ⟨-1, 0, 1⟩, Real.pi⟩ : Extrude ℝ)
      = some [[⟨1, 0, 0⟩, ⟨0, 1, 0⟩], [⟨0, 1, 0⟩, ⟨0, 0, 0⟩], [⟨0, 0, 0⟩, ⟨1, 0, 0⟩],
          [⟨-2, 0, 1⟩, ⟨-1, -1, 1⟩], [⟨-1, -1, 1⟩, ⟨-1, 0, 1⟩], [⟨-1, 0, 1⟩, ⟨-2, 0, 1⟩]]
    ∧ Vec3.squared_norm (⟨-2, 0, 1⟩ : Vec3 ℝ) = 5
    ∧ ¬ (Vec3.squared_norm (⟨-2, 0, 1⟩ : Vec3 ℝ)
        ≤ Extrude.get_bounding_sphere_squared_radius
            (⟨⟨[⟨1, 0⟩, ⟨0, 1⟩, ⟨0, 0⟩]⟩, ⟨-1, 0, 1⟩, Real.pi⟩ : Extrude ℝ)) := by
  have hbound : Extrude.get_bounding_sphere_squared_radius
      (⟨⟨[⟨1, 0⟩, ⟨0, 1⟩, ⟨0, 0⟩]⟩, ⟨-1, 0, 1⟩, Real.pi⟩ : Extrude ℝ) = 3 := by
    norm_num [Extrude.get_bounding_sphere_squared_radius]
  refine ⟨hbound, ?_, ?_, ?_⟩
  · norm_num [Extrude.get_features, push_back_loop, Polygon2D.get, List.range_succ,
      Real.sin_pi, Real.cos_pi]
  · norm_num [Vec3.squared_norm]
  · rw [hbound]
    norm_num [Vec3.squared_norm]

/-! ### The state of `std::cerr` at exit -/

/-- The flags of `std::cerr` when `generate_mesh` exits: untouched with `verbose = true`; with
`verbose = false` they are `goodbit` after a normal return, whatever they were before, and the
flags before the call with `failbit` added when the engine raises a failure. -/
theorem generate_mesh_cerr_at_exit {Index T E C3t3 : Type}
    (make_mesh_3 : Make_mesh_3_call F Index T → Except E C3t3)
    (domain : DomainBase F) (outfile : String) (domain_bounds : T) (a : Mesh_params F)
    (w : World) :
    (a.verbose = true →
      (generate_mesh make_mesh_3 domain outfile domain_bounds a w).2.cerr = w.cerr)
    ∧ (a.verbose = false →
        ∀ c3t3, make_mesh_3 (generate_mesh_call domain domain_bounds a) = Except.ok c3t3 →
          (generate_mesh make_mesh_3 domain outfile domain_bounds a w).2.cerr = goodbit)
    ∧ (a.verbose = false →
        ∀ e, make_mesh_3 (generate_mesh_call domain domain_bounds a) = Except.error e →
          (generate_mesh make_mesh_3 domain outfile domain_bounds a w).2.cerr
            = w.cerr.setstate failbit) := by
  refine ⟨?_, ?_, ?_⟩
  · intro hv
    unfold generate_mesh
    cases make_mesh_3 (generate_mesh_call domain domain_bounds a) <;> simp [hv]
  · intro hv c3t3 hok
    unfold generate_mesh
    simp [hv, hok, Iostate.clear]
  · intro hv e herr
    unfold generate_mesh
    simp [hv, herr]

/-- The flags of `std::cerr` when `generate_periodic_mesh` exits: as for `generate_mesh`. -/
theorem generate_periodic_mesh_cerr_at_exit {E C3t3 : Type}
    (make_periodic_3_mesh_3 : Make_periodic_3_mesh_3_call F → Except E C3t3)
    (domain : DomainBase F) (outfile : String) (bounding_cuboid : Array6 F)
    (a : Periodic_params F) (w : World) :
    (a.verbose = true →
      (generate_periodic_mesh make_periodic_3_mesh_3 domain outfile bounding_cuboid a w).2.cerr
        = w.cerr)
    ∧ (a.verbose = false →
        ∀ c3t3,
          make_periodic_3_mesh_3 (generate_periodic_mesh_call domain bounding_cuboid a)
            = Except.ok c3t3 →
          (generate_periodic_mesh make_periodic_3_mesh_3 domain outfile bounding_cuboid a w
            ).2.cerr = goodbit)
    ∧ (a.verbose = false →
        ∀ e,
          make_periodic_3_mesh_3 (generate_periodic_mesh_call domain bounding_cuboid a)
            = Except.error e →
          (generate_periodic_mesh make_periodic_3_mesh_3 domain outfile bounding_cuboid a w
            ).2.cerr = w.cerr.setstate failbit) := by
  refine ⟨?_, ?_, ?_⟩
  · intro hv
    unfold generate_periodic_mesh
    cases make_periodic_3_mesh_3 (generate_periodic_mesh_call domain bounding_cuboid a) <;>
      simp [hv]
  · intro hv c3t3 hok
    unfold generate_periodic_mesh
    simp [hv, hok, Iostate.clear]
  · intro hv e herr
    unfold generate_periodic_mesh
    simp [hv, herr]

/-- C9, with `verbose = false`, `std::cerr` in the good state before the call and an engine
that raises a failure: when `generate_mesh` and `generate_periodic_mesh` exit, the failure has
propagated and `std::cerr` has `failbit` set, so its state is not the state before the call. -/
theorem cerr_left_failed_after_engine_failure :
    (generate_mesh
        (fun _ : Make_mesh_3_call ℚ Unit (Sphere_3 ℚ) =>
          (Except.error "refinement failed" : Except String Unit))
        (⟨fun _ => 1, 0, []⟩ : DomainBase ℚ) "out.mesh" (Sphere_3.mk ORIGIN 1)
        ⟨[], false, false, false, false, 0, 1, none, 0, 1, none, 1, none, 2, 1, none, 0, 0,
          false, 0⟩
        ⟨goodbit, 0⟩)
      = (Except.error "refinement failed", ⟨failbit, 0⟩)
    ∧ (generate_periodic_mesh
        (fun _ : Make_periodic_3_mesh_3_call ℚ =>
          (Except.error "refinement failed" : Except String Unit))
        (⟨fun _ => 1, 0, []⟩ : DomainBase ℚ) "out.mesh" ⟨0, 0, 0, 1, 1, 1⟩
        ⟨false, false, false, false, false, 1, 0, 1, 1, 2, 1, 1, false, 0⟩
        ⟨goodbit, 0⟩)
      = (Except.error "refinement failed", ⟨failbit, 0⟩)
    ∧ failbit ≠ goodbit := by
  refine ⟨rfl, rfl, by decide⟩

/-! ### The points of `get_features` are inside the domain -/

/-- Every point of every polyline of `features_spec` is the base vertex or the top vertex of a
vertex of the polygon. -/
theorem features_spec_point_cases (k : Kernel F) (self : Extrude F) :
    ∀ polyline ∈ features_spec k self, ∀ pt ∈ polyline,
      ∃ p ∈ self.poly_.points, pt = base_vertex p ∨ pt = top_vertex k self p := by
  intro polyline hmem pt hpt
  simp only [features_spec, List.mem_append, List.mem_map, List.mem_range] at hmem
  rcases hmem with ⟨i, hi, rfl⟩ | ⟨i, hi, rfl⟩
  · have hj : (i + 1) % self.poly_.points.length < self.poly_.points.length :=
      Nat.mod_lt _ (Nat.lt_of_le_of_lt (Nat.zero_le i) hi)
    simp only [List.mem_cons, List.mem_singleton, List.not_mem_nil, or_false] at hpt
    rcases hpt with rfl | rfl
    · exact ⟨_, self.poly_.get_mem i hi, Or.inl rfl⟩
    · exact ⟨_, self.poly_.get_mem _ hj, Or.inl rfl⟩
  · have hj : (i + 1) % self.poly_.points.length < self.poly_.points.length :=
      Nat.mod_lt _ (Nat.lt_of_le_of_lt (Nat.zero_le i) hi)
    simp only [List.mem_cons, List.mem_singleton, List.not_mem_nil, or_false] at hpt
    rcases hpt with rfl | rfl
    · exact ⟨_, self.poly_.get_mem i hi, Or.inr rfl⟩
    · exact ⟨_, self.poly_.get_mem _ hj, Or.inr rfl⟩

end pygalmesh
